import Mathlib

/-!
Shallow embedding of the calculation core of `how-much-did-it-cost-me`
(`js/calculations.js`) together with the static reference tables it reads
(`js/data.js`).

Modelling conventions:

* JS numbers are modelled as `ℚ`.  Every claim of the specification is about
  the ideal real-number value of the arithmetic (the spec only asks for
  agreement "to floating-point tolerance"), and all the constants involved
  are decimal literals, so `ℚ` carries the exact intended value.
* The bracket bound `Infinity` (in `TAX_BRACKETS` and `COMPARISONS`) is
  modelled as `Option ℚ` with `none` standing for `Infinity`.
* A JS `TypeError` escaping a function is modelled by `Except.error` with a
  fixed message string; the exact message text mirrors the browser message
  (without quote characters).
* Divisions whose divisor is a nonzero static constant are written with `ℚ`
  division (which agrees with the ideal value of the JS division).  The one
  division whose divisor is caller-supplied and can be `0` — the
  `mixed`-branch `yourShare / spendingAmount` — is recorded through `jsDiv`,
  which captures the IEEE special results `NaN` / `±Infinity` in `JsNum`.
-/

namespace HowMuchDidItCostMe

/-- IEEE-style value of a JS division: a finite rational, `NaN`, or a signed
infinity.  Only used where a divisor can actually be zero. -/
inductive JsNum where
  | val : ℚ → JsNum
  | nan : JsNum
  | posInf : JsNum
  | negInf : JsNum
deriving DecidableEq

/-- JS division `x / y` with its IEEE special cases (`0/0 = NaN`,
`x/0 = ±Infinity` for `x ≠ 0`). -/
def jsDiv (x y : ℚ) : JsNum :=
  if y = 0 then
    if x = 0 then JsNum.nan else if 0 < x then JsNum.posInf else JsNum.negInf
  else JsNum.val (x / y)

/-- `Math.round`: round half toward positive infinity (JS semantics agree
with `⌊x + 1/2⌋` on all inputs). -/
def jsRound (x : ℚ) : ℤ := ⌊x + 1/2⌋

/-! ### `js/data.js` — static reference tables -/

/-- `STANDARD_DEDUCTIONS` (data.js): keyed object lookup; an unknown key
yields `undefined`, modelled as `none`. -/
def STANDARD_DEDUCTIONS (filingStatus : String) : Option ℚ :=
  if filingStatus = "single" then some 14600
  else if filingStatus = "married" then some 29200
  else none

/-- One entry of a `TAX_BRACKETS` table; `max = none` models `Infinity`. -/
structure Bracket where
  bmin : ℚ
  bmax : Option ℚ
  rate : ℚ
deriving DecidableEq

/-- `TAX_BRACKETS.single` (data.js). -/
def singleBrackets : List Bracket :=
  [⟨0, some 11600, 0.10⟩,
   ⟨11600, some 47150, 0.12⟩,
   ⟨47150, some 100525, 0.22⟩,
   ⟨100525, some 191950, 0.24⟩,
   ⟨191950, some 243725, 0.32⟩,
   ⟨243725, some 609350, 0.35⟩,
   ⟨609350, none, 0.37⟩]

/-- `TAX_BRACKETS.married` (data.js). -/
def marriedBrackets : List Bracket :=
  [⟨0, some 23200, 0.10⟩,
   ⟨23200, some 94300, 0.12⟩,
   ⟨94300, some 201050, 0.22⟩,
   ⟨201050, some 383900, 0.24⟩,
   ⟨383900, some 487450, 0.32⟩,
   ⟨487450, some 731200, 0.35⟩,
   ⟨731200, none, 0.37⟩]

/-- `TAX_BRACKETS` (data.js) as a keyed lookup. -/
def TAX_BRACKETS (filingStatus : String) : Option (List Bracket) :=
  if filingStatus = "single" then some singleBrackets
  else if filingStatus = "married" then some marriedBrackets
  else none

/-- `FICA.socialSecurity.rate` (data.js). -/
def ficaSocialSecurityRate : ℚ := 0.062

/-- `FICA.socialSecurity.wageBase` (data.js). -/
def ficaSocialSecurityWageBase : ℚ := 168600

/-- `FICA.medicare.rate` (data.js). -/
def ficaMedicareRate : ℚ := 0.0145

/-- `FICA.medicare.additionalRate` (data.js). -/
def ficaMedicareAdditionalRate : ℚ := 0.009

/-- `FICA.medicare.additionalThreshold` (data.js): keyed lookup, unknown key
gives `undefined` (`none`). -/
def ficaMedicareAdditionalThreshold (filingStatus : String) : Option ℚ :=
  if filingStatus = "single" then some 200000
  else if filingStatus = "married" then some 250000
  else none

/-- `FEDERAL_BUDGET.revenue.individualIncomeTax` (data.js): $2.4 trillion. -/
def revenueIndividualIncomeTax : ℚ := 2400000000000

/-- `FEDERAL_BUDGET.revenue.payrollTax` (data.js): $1.7 trillion. -/
def revenuePayrollTax : ℚ := 1700000000000

/-- The three `taxSource` values occurring in `FUNDING_CATEGORIES`. -/
inductive TaxSource where
  | income : TaxSource
  | fica : TaxSource
  | mixed : TaxSource
deriving DecidableEq

/-- One record of `FUNDING_CATEGORIES` (data.js).  `incomeSharePercent` /
`ficaSharePercent` are only present on the `mixed` record in the source;
here they are `0` on non-`mixed` records, which is unobservable because
`calculateShare` reads them only in its `mixed` branch. -/
structure FundingCategory where
  name : String
  taxSource : TaxSource
  budgetPool : ℚ
  revenuePool : ℚ
  incomeSharePercent : ℚ
  ficaSharePercent : ℚ
deriving DecidableEq

/-- `FUNDING_CATEGORIES.defense` (data.js). -/
def defenseCategory : FundingCategory :=
  ⟨"Defense & Military", TaxSource.income, 900000000000, revenueIndividualIncomeTax, 0, 0⟩

/-- `FUNDING_CATEGORIES.general` (data.js): budgetPool is
`otherDiscretionary + otherMandatory` = 0.9T + 1.0T. -/
def generalCategory : FundingCategory :=
  ⟨"General Government", TaxSource.income, 1900000000000, revenueIndividualIncomeTax, 0, 0⟩

/-- `FUNDING_CATEGORIES.socialSecurity` (data.js). -/
def socialSecurityCategory : FundingCategory :=
  ⟨"Social Security", TaxSource.fica, 1400000000000, revenuePayrollTax, 0, 0⟩

/-- `FUNDING_CATEGORIES.medicare` (data.js): the only `mixed` record;
`revenuePool = 2.4T × 0.6 + 1.7T × 0.4` (the blended pool, unused by the
`mixed` branch of `calculateShare`). -/
def medicareCategory : FundingCategory :=
  ⟨"Medicare & Medicaid", TaxSource.mixed, 1700000000000,
   revenueIndividualIncomeTax * 0.6 + revenuePayrollTax * 0.4, 0.60, 0.40⟩

/-- `FUNDING_CATEGORIES.interest` (data.js). -/
def interestCategory : FundingCategory :=
  ⟨"Interest on Debt", TaxSource.income, 900000000000, revenueIndividualIncomeTax, 0, 0⟩

/-- `FUNDING_CATEGORIES` (data.js) as a keyed lookup; an unknown key yields
`undefined`, modelled as `none`. -/
def FUNDING_CATEGORIES (category : String) : Option FundingCategory :=
  if category = "defense" then some defenseCategory
  else if category = "general" then some generalCategory
  else if category = "socialSecurity" then some socialSecurityCategory
  else if category = "medicare" then some medicareCategory
  else if category = "interest" then some interestCategory
  else none

/-- One entry of `COMPARISONS` (data.js); `max = none` models `Infinity`. -/
structure Comparison where
  cmax : Option ℚ
  text : String
deriving DecidableEq

/-- `COMPARISONS` (data.js). -/
def COMPARISONS : List Comparison :=
  [⟨some 0.01, "Less than a penny"⟩,
   ⟨some 0.10, "About {cents} cents"⟩,
   ⟨some 1.00, "About {cents} cents"⟩,
   ⟨some 5.00, "About the cost of a coffee"⟩,
   ⟨some 15.00, "About the cost of a fast food meal"⟩,
   ⟨some 25.00, "About the cost of a movie ticket"⟩,
   ⟨some 75.00, "About the cost of a tank of gas"⟩,
   ⟨some 150.00, "About the cost of a nice dinner out"⟩,
   ⟨some 500.00, "About the cost of a monthly utility bill"⟩,
   ⟨none, "About {days} days of your annual tax contribution"⟩]

/-! ### `js/calculations.js` — the calculation core -/

/-- The `for (const bracket of brackets)` loop body of `calculateIncomeTax`
(calculations.js lines 17-25), with the running `previousMax` made an
explicit argument.  `break` on `taxableIncome <= previousMax` is the `0`
result; after a bracket with `max = Infinity` the JS loop always breaks on
the next iteration, hence the `none => 0` continuation. -/
def bracketLoop (brackets : List Bracket) (taxableIncome previousMax : ℚ) : ℚ :=
  match brackets with
  | [] => 0
  | bracket :: rest =>
    if taxableIncome ≤ previousMax then 0
    else
      let upper : ℚ := match bracket.bmax with
        | none => taxableIncome
        | some m => min taxableIncome m
      let taxableInBracket := upper - previousMax
      (if 0 < taxableInBracket then taxableInBracket * bracket.rate else 0) +
        (match bracket.bmax with
         | none => 0
         | some m => bracketLoop rest taxableIncome m)

/-- The JS `TypeError` thrown by `for (const bracket of undefined)` when the
filing status is not a key of the tables. -/
def undefinedBracketsError : String := "TypeError: undefined is not iterable"

/-- `calculateIncomeTax` (calculations.js lines 9-28).  For a known filing
status: `taxableIncome = max(0, grossIncome - standardDeduction)` followed by
the bracket walk.  For an unknown filing status the JS function throws a
`TypeError` when iterating `TAX_BRACKETS[filingStatus] = undefined`. -/
def calculateIncomeTax (grossIncome : ℚ) (filingStatus : String) : Except String ℚ :=
  match STANDARD_DEDUCTIONS filingStatus, TAX_BRACKETS filingStatus with
  | some standardDeduction, some brackets =>
    Except.ok (bracketLoop brackets (max 0 (grossIncome - standardDeduction)) 0)
  | _, _ => Except.error undefinedBracketsError

/-- Result record of `calculateFICA`. -/
structure FICAResult where
  socialSecurity : ℚ
  medicare : ℚ
  total : ℚ
deriving DecidableEq

/-- `calculateFICA` (calculations.js lines 36-53).  For an unknown filing
status the threshold lookup is `undefined` and the JS comparison
`grossIncome > undefined` is false, so no additional Medicare tax is added
(the function does not throw). -/
def calculateFICA (grossIncome : ℚ) (filingStatus : String) : FICAResult :=
  let ssWages := min grossIncome ficaSocialSecurityWageBase
  let socialSecurityTax := ssWages * ficaSocialSecurityRate
  let medicareTax :=
    match ficaMedicareAdditionalThreshold filingStatus with
    | some additionalThreshold =>
      if additionalThreshold < grossIncome then
        grossIncome * ficaMedicareRate +
          (grossIncome - additionalThreshold) * ficaMedicareAdditionalRate
      else grossIncome * ficaMedicareRate
    | none => grossIncome * ficaMedicareRate
  ⟨socialSecurityTax, medicareTax, socialSecurityTax + medicareTax⟩

/-- The `breakdown` object built by `calculateShare`; fields present only in
some branches are `Option`s (`none` = absent from the JS object). -/
structure Breakdown where
  taxType : String
  yourTax : ℚ
  totalRevenue : Option ℚ
  incomeContribution : Option ℚ
  ficaContribution : Option ℚ
  proportion : JsNum
deriving DecidableEq

/-- The result record of `calculateShare`. -/
structure ShareResult where
  yourShare : ℚ
  spendingAmount : ℚ
  category : String
  taxSource : TaxSource
  budgetPool : ℚ
  breakdown : Breakdown
  exceedsBudget : Bool
  deficitNote : String
deriving DecidableEq

/-- The static `deficitNote` string of `calculateShare`. -/
def deficitNoteText : String :=
  "About 28% of federal spending is deficit-financed (borrowed), not directly from current taxes."

/-- The branch body of `calculateShare` (calculations.js lines 67-115) after
the successful category lookup.  The `proportion` stored in `breakdown` is
recorded through `jsDiv`; the `ℚ` divisions feeding `yourShare` have nonzero
static divisors (every catalog `revenuePool` and both economy-wide revenue
totals are positive), where `ℚ` division agrees with the JS value. -/
def calculateShareCore (categoryData : FundingCategory)
    (incomeTax ficaTax spendingAmount : ℚ) : ShareResult :=
  match categoryData.taxSource with
  | TaxSource.income =>
    let proportion := incomeTax / categoryData.revenuePool
    let yourShare := proportion * spendingAmount
    ⟨yourShare, spendingAmount, categoryData.name, TaxSource.income,
     categoryData.budgetPool,
     ⟨"Federal Income Tax", incomeTax, some categoryData.revenuePool, none, none,
      jsDiv incomeTax categoryData.revenuePool⟩,
     decide (categoryData.budgetPool < spendingAmount), deficitNoteText⟩
  | TaxSource.fica =>
    let proportion := ficaTax / categoryData.revenuePool
    let yourShare := proportion * spendingAmount
    ⟨yourShare, spendingAmount, categoryData.name, TaxSource.fica,
     categoryData.budgetPool,
     ⟨"Payroll Tax (FICA)", ficaTax, some categoryData.revenuePool, none, none,
      jsDiv ficaTax categoryData.revenuePool⟩,
     decide (categoryData.budgetPool < spendingAmount), deficitNoteText⟩
  | TaxSource.mixed =>
    let incomeShare := incomeTax / revenueIndividualIncomeTax *
      spendingAmount * categoryData.incomeSharePercent
    let ficaShare := ficaTax / revenuePayrollTax *
      spendingAmount * categoryData.ficaSharePercent
    let yourShare := incomeShare + ficaShare
    ⟨yourShare, spendingAmount, categoryData.name, TaxSource.mixed,
     categoryData.budgetPool,
     ⟨"Mixed (Income Tax + FICA)", incomeTax + ficaTax, none,
      some incomeShare, some ficaShare, jsDiv yourShare spendingAmount⟩,
     decide (categoryData.budgetPool < spendingAmount), deficitNoteText⟩

/-- The JS `TypeError` thrown by `calculateShare` when
`FUNDING_CATEGORIES[category]` is `undefined` and `.taxSource` is read from
it (calculations.js line 70).  The message names the property read, not the
unknown category key. -/
def undefinedTaxSourceError : String :=
  "TypeError: Cannot read properties of undefined (reading taxSource)"

/-- `calculateShare` (calculations.js lines 64-116): category lookup, then
the branch body; an unknown category key throws the `TypeError` above. -/
def calculateShare (incomeTax ficaTax spendingAmount : ℚ) (category : String) :
    Except String ShareResult :=
  match FUNDING_CATEGORIES category with
  | some categoryData =>
    Except.ok (calculateShareCore categoryData incomeTax ficaTax spendingAmount)
  | none => Except.error undefinedTaxSourceError

/-- `List.isPrefixOf`-based substring test on character lists, modelling
JS `String.prototype.includes`. -/
def hasSubstrAux : List Char → List Char → Bool
  | [], pat => pat.isEmpty
  | c :: rest, pat => pat.isPrefixOf (c :: rest) || hasSubstrAux rest pat

/-- JS `text.includes(pat)`. -/
def hasSubstr (s pat : String) : Bool := hasSubstrAux s.toList pat.toList

/-- First-occurrence replacement on character lists, modelling JS
`String.prototype.replace` with a string pattern (which replaces only the
first occurrence). -/
def replaceFirstAux (s pat repl : List Char) : List Char :=
  match s with
  | [] => []
  | c :: rest =>
    if pat.isPrefixOf (c :: rest) then repl ++ (c :: rest).drop pat.length
    else c :: replaceFirstAux rest pat repl

/-- JS `s.replace(pat, repl)` for a string pattern. -/
def replaceFirst (s pat repl : String) : String :=
  (replaceFirstAux s.toList pat.toList repl.toList).asString

/-- The loop body of `getComparison` (calculations.js lines 125-141):
placeholder substitution on a matched template.  `{cents}` becomes
`Math.round(share * 100)`; `{days}` becomes
`Math.round(share / (annualTax / 365))` guarded by `dailyTax > 0`, else `0`. -/
def substituteComparison (text : String) (share annualTax : ℚ) : String :=
  let text1 :=
    if hasSubstr text "{cents}" then
      replaceFirst text "{cents}" (toString (jsRound (share * 100)))
    else text
  if hasSubstr text1 "{days}" then
    let dailyTax := annualTax / 365
    let days : ℤ := if 0 < dailyTax then jsRound (share / dailyTax) else 0
    replaceFirst text1 "{days}" (toString days)
  else text1

/-- The `for (const comp of COMPARISONS)` loop of `getComparison`:
return the substituted text of the first entry with `share < comp.max`
(`share < Infinity` is always true), or `""` after the loop. -/
def comparisonLoop (comps : List Comparison) (share annualTax : ℚ) : String :=
  match comps with
  | [] => ""
  | comp :: rest =>
    let matched : Bool := match comp.cmax with
      | none => true
      | some m => decide (share < m)
    if matched then substituteComparison comp.text share annualTax
    else comparisonLoop rest share annualTax

/-- `getComparison` (calculations.js lines 124-144). -/
def getComparison (share annualTax : ℚ) : String :=
  comparisonLoop COMPARISONS share annualTax

/-! ### Theorems -/

/-- Ground evaluation of the threshold table at the key `"single"`. -/
lemma threshold_single : ficaMedicareAdditionalThreshold "single" = some 200000 := rfl

/-- Ground evaluation of the threshold table at the key `"married"`. -/
lemma threshold_married : ficaMedicareAdditionalThreshold "married" = some 250000 := rfl

/-- Ground evaluation of the threshold table at the unknown key `"head"`. -/
lemma threshold_head : ficaMedicareAdditionalThreshold "head" = none := rfl

/-- Ground evaluation of `calculateIncomeTax` at gross income $75,000,
single: taxable $60,400; 11600×0.10 + 35550×0.12 + 13250×0.22 = 8341. -/
lemma calcIncomeTax_75000_single : calculateIncomeTax 75000 "single" = Except.ok 8341 := by
  norm_num [calculateIncomeTax, STANDARD_DEDUCTIONS, TAX_BRACKETS, bracketLoop,
    singleBrackets, max_def, min_def]

/-- C1: for every funding category record (hence all three `taxSource`
branches), `calculateShare`'s `yourShare` is linear in `spendingAmount`
(doubling spending doubles the share) and jointly linear in the tax inputs;
`spendingAmount = 0` gives `yourShare = 0` in every branch; a zero tax input
zeroes the corresponding branch contribution (the whole share for `income` /
`fica` categories, the matching slice for `mixed` ones). -/
theorem claim_C1_linearity (cd : FundingCategory)
    (incomeTax ficaTax spendingAmount : ℚ) :
    ((calculateShareCore cd incomeTax ficaTax (2 * spendingAmount)).yourShare =
      2 * (calculateShareCore cd incomeTax ficaTax spendingAmount).yourShare) ∧
    (∀ c : ℚ,
      (calculateShareCore cd (c * incomeTax) (c * ficaTax) spendingAmount).yourShare =
        c * (calculateShareCore cd incomeTax ficaTax spendingAmount).yourShare) ∧
    ((calculateShareCore cd incomeTax ficaTax 0).yourShare = 0) ∧
    (cd.taxSource = TaxSource.income →
      (calculateShareCore cd 0 ficaTax spendingAmount).yourShare = 0) ∧
    (cd.taxSource = TaxSource.fica →
      (calculateShareCore cd incomeTax 0 spendingAmount).yourShare = 0) ∧
    (cd.taxSource = TaxSource.mixed →
      (calculateShareCore cd 0 ficaTax spendingAmount).breakdown.incomeContribution =
        some 0 ∧
      (calculateShareCore cd incomeTax 0 spendingAmount).breakdown.ficaContribution =
        some 0) := by
  obtain ⟨n, ts, bp, rp, isp, fsp⟩ := cd
  cases ts <;>
    refine ⟨?_, fun c => ?_, ?_, ?_, ?_, ?_⟩ <;>
    simp [calculateShareCore] <;>
    ring

/-- C1 witness: the linearity theorem instantiated at the `defense` (income)
and `medicare` (mixed) catalog records with concrete inputs. -/
theorem claim_C1_witness :
    (calculateShareCore defenseCategory 8341 7650 0).yourShare = 0 ∧
    (calculateShareCore defenseCategory 0 7650 1000000000).yourShare = 0 ∧
    (calculateShareCore socialSecurityCategory 8341 0 1000000000).yourShare = 0 ∧
    (calculateShareCore medicareCategory 0 7650 1000000000).breakdown.incomeContribution =
      some 0 :=
  ⟨(claim_C1_linearity defenseCategory 8341 7650 5).2.2.1,
   (claim_C1_linearity defenseCategory 3 7650 1000000000).2.2.2.1 rfl,
   (claim_C1_linearity socialSecurityCategory 8341 3 1000000000).2.2.2.2.1 rfl,
   ((claim_C1_linearity medicareCategory 3 7650 1000000000).2.2.2.2.2 rfl).1⟩

/-- C2 counterexample: `calculateIncomeTax(75000, single)` is exactly $8,341
— more than $1,000 away from the claimed ≈$9,400 — and the resulting
end-to-end `defense` share of a $10B spend is 8341/240 ≈ $34.75, more than
$4 away from the claimed ≈$39.17. -/
theorem claim_C2_counterexample :
    calculateIncomeTax 75000 "single" = Except.ok 8341 ∧
    1000 ≤ |(8341 : ℚ) - 9400| ∧
    calculateShare 8341 0 10000000000 "defense" =
      Except.ok (calculateShareCore defenseCategory 8341 0 10000000000) ∧
    (calculateShareCore defenseCategory 8341 0 10000000000).yourShare = 8341 / 240 ∧
    4 ≤ |(8341 : ℚ) / 240 - 39.17| := by
  refine ⟨calcIncomeTax_75000_single, ?_, rfl, ?_, ?_⟩
  · rw [abs_of_nonpos (by norm_num)]; norm_num
  · show (8341 : ℚ) / 2400000000000 * 10000000000 = 8341 / 240
    norm_num
  · rw [abs_of_nonpos (by norm_num)]; norm_num

/-- C2 amended: for gross income $75,000 single, `calculateIncomeTax`
returns exactly $8,341 under the 2024 bracket table, and feeding it into
`calculateShare` with a $10,000,000,000 spend on `defense` yields
`yourShare = (8341 / 2,400,000,000,000) × 10,000,000,000 = 8341/240 ≈ $34.75`. -/
theorem claim_C2_amended :
    calculateIncomeTax 75000 "single" = Except.ok 8341 ∧
    ∀ ficaTax : ℚ,
      calculateShare 8341 ficaTax 10000000000 "defense" =
        Except.ok (calculateShareCore defenseCategory 8341 ficaTax 10000000000) ∧
      (calculateShareCore defenseCategory 8341 ficaTax 10000000000).yourShare =
        8341 / 2400000000000 * 10000000000 ∧
      (8341 : ℚ) / 2400000000000 * 10000000000 = 8341 / 240 := by
  refine ⟨calcIncomeTax_75000_single, fun ficaTax => ⟨rfl, rfl, by norm_num⟩⟩

/-- C3: for every `mixed` category record, `yourShare` is the sum of an
income-tax slice and a payroll-tax slice, each over the economy-wide revenue
totals scaled by the category's split weights (not over the blended
`revenuePool` — witnessed by a concrete input on which the blended-pool
formula disagrees), and the recorded contributions sum exactly to
`yourShare`. -/
theorem claim_C3_mixed_decomposition (cd : FundingCategory)
    (h : cd.taxSource = TaxSource.mixed) (incomeTax ficaTax spendingAmount : ℚ) :
    ((calculateShareCore cd incomeTax ficaTax spendingAmount).yourShare =
      incomeTax / revenueIndividualIncomeTax * spendingAmount * cd.incomeSharePercent +
      ficaTax / revenuePayrollTax * spendingAmount * cd.ficaSharePercent) ∧
    ((calculateShareCore cd incomeTax ficaTax spendingAmount).breakdown.incomeContribution =
      some (incomeTax / revenueIndividualIncomeTax * spendingAmount * cd.incomeSharePercent)) ∧
    ((calculateShareCore cd incomeTax ficaTax spendingAmount).breakdown.ficaContribution =
      some (ficaTax / revenuePayrollTax * spendingAmount * cd.ficaSharePercent)) ∧
    (∀ q1 q2 : ℚ,
      (calculateShareCore cd incomeTax ficaTax spendingAmount).breakdown.incomeContribution =
        some q1 →
      (calculateShareCore cd incomeTax ficaTax spendingAmount).breakdown.ficaContribution =
        some q2 →
      q1 + q2 = (calculateShareCore cd incomeTax ficaTax spendingAmount).yourShare) ∧
    ((calculateShareCore medicareCategory 2400000000000 0 2120000000000).yourShare ≠
      (2400000000000 + 0) / medicareCategory.revenuePool * 2120000000000) := by
  obtain ⟨n, ts, bp, rp, isp, fsp⟩ := cd
  cases h
  refine ⟨rfl, rfl, rfl, ?_, ?_⟩
  · intro q1 q2 h1 h2
    simp only [calculateShareCore, Option.some.injEq] at h1 h2 ⊢
    rw [← h1, ← h2]
  · show (2400000000000 : ℚ) / revenueIndividualIncomeTax * 2120000000000 * (0.60 : ℚ) +
      0 / revenuePayrollTax * 2120000000000 * (0.40 : ℚ) ≠ _
    rw [revenueIndividualIncomeTax, revenuePayrollTax]
    show _ ≠ (2400000000000 + 0 : ℚ) /
      (revenueIndividualIncomeTax * 0.6 + revenuePayrollTax * 0.4) * 2120000000000
    rw [revenueIndividualIncomeTax, revenuePayrollTax]
    norm_num

/-- C3 witness: the decomposition at the `medicare` record with income tax
$2,400, FICA $1,700 and a $1B spend gives `yourShare = 0.6 + 0.4 = 1`. -/
theorem claim_C3_witness :
    (calculateShareCore medicareCategory 2400 1700 1000000000).yourShare = 1 := by
  have h := claim_C3_mixed_decomposition medicareCategory rfl 2400 1700 1000000000
  rw [h.1]
  show (2400 : ℚ) / revenueIndividualIncomeTax * 1000000000 * (0.60 : ℚ) +
    (1700 : ℚ) / revenuePayrollTax * 1000000000 * (0.40 : ℚ) = 1
  rw [revenueIndividualIncomeTax, revenuePayrollTax]
  norm_num

/-- C6: the additional-Medicare boundary is exclusive:
`calculateFICA(250000, single).medicare = 4075` exactly,
`calculateFICA(250000, married).medicare = 3625` exactly, and for married
filers the additional 0.9% applies exactly to the portion of income strictly
above $250,000 and never at or below it. -/
theorem claim_C6_additional_medicare_boundary :
    (calculateFICA 250000 "single").medicare = 4075 ∧
    (calculateFICA 250000 "married").medicare = 3625 ∧
    (∀ grossIncome : ℚ, grossIncome ≤ 250000 →
      (calculateFICA grossIncome "married").medicare = grossIncome * 0.0145) ∧
    (∀ grossIncome : ℚ, 250000 < grossIncome →
      (calculateFICA grossIncome "married").medicare =
        grossIncome * 0.0145 + (grossIncome - 250000) * 0.009) := by
  refine ⟨?_, ?_, fun g hg => ?_, fun g hg => ?_⟩
  · norm_num [calculateFICA, threshold_single, ficaMedicareRate,
      ficaMedicareAdditionalRate]
  · norm_num [calculateFICA, threshold_married, ficaMedicareRate,
      ficaMedicareAdditionalRate]
  · simp [calculateFICA, threshold_married, ficaMedicareRate, not_lt.mpr hg]
  · simp [calculateFICA, threshold_married, ficaMedicareRate,
      ficaMedicareAdditionalRate, hg]

/-- C6 witness: the exclusive-boundary rule applied at concrete incomes on
each side of the married threshold. -/
theorem claim_C6_witness :
    (calculateFICA 100000 "married").medicare = 100000 * 0.0145 ∧
    (calculateFICA 300000 "married").medicare =
      300000 * 0.0145 + (300000 - 250000) * 0.009 :=
  ⟨claim_C6_additional_medicare_boundary.2.2.1 100000 (by norm_num),
   claim_C6_additional_medicare_boundary.2.2.2 300000 (by norm_num)⟩

/-- C7 counterexample: for the unknown category key `"brd"`,
`calculateShare` does throw a catchable error (the property-access
`TypeError`), but that error does not identify the unknown category: its
message does not contain the key, and it is the identical error for every
unknown key. -/
theorem claim_C7_counterexample :
    calculateShare 1 2 3 "brd" = Except.error undefinedTaxSourceError ∧
    hasSubstr undefinedTaxSourceError "brd" = false ∧
    calculateShare 1 2 3 "brd" = calculateShare 1 2 3 "xyz" := by
  exact ⟨rfl, by decide, rfl⟩

/-- C7 amended: for every category key absent from the funding-category
catalog, `calculateShare` throws a catchable error and never returns a
numeric result; the error is the fixed property-access `TypeError`, which
does not name the unknown category. -/
theorem claim_C7_amended (category : String)
    (h : FUNDING_CATEGORIES category = none)
    (incomeTax ficaTax spendingAmount : ℚ) :
    calculateShare incomeTax ficaTax spendingAmount category =
      Except.error undefinedTaxSourceError := by
  simp [calculateShare, h]

/-- C7 witness: the amended claim at the concrete unknown key `"nope"`. -/
theorem claim_C7_witness :
    calculateShare 5 6 7 "nope" = Except.error undefinedTaxSourceError :=
  claim_C7_amended "nope" (by decide) 5 6 7

/-- C9 counterexample: for the unrecognized filing status `"head"` at gross
income $250,000, `calculateIncomeTax` throws a `TypeError` while
`calculateFICA` neither throws nor behaves as `single` (its medicare is
$3,625, but `single` gives $4,075) — so no single uniform policy is applied. -/
theorem claim_C9_counterexample :
    calculateIncomeTax 250000 "head" = Except.error undefinedBracketsError ∧
    (calculateFICA 250000 "head").medicare = 3625 ∧
    (calculateFICA 250000 "single").medicare = 4075 := by
  refine ⟨rfl, ?_, ?_⟩
  · norm_num [calculateFICA, threshold_head, ficaMedicareRate]
  · norm_num [calculateFICA, threshold_single, ficaMedicareRate,
      ficaMedicareAdditionalRate]

/-- C9 amended: for every unrecognized filing status, `calculateIncomeTax`
throws a `TypeError` (iterating an `undefined` bracket table), while
`calculateFICA` silently computes Social Security and base Medicare with no
additional Medicare tax, as if the threshold were infinite — the two
functions do not apply one uniform policy. -/
theorem claim_C9_amended (filingStatus : String)
    (h1 : filingStatus ≠ "single") (h2 : filingStatus ≠ "married")
    (grossIncome : ℚ) :
    calculateIncomeTax grossIncome filingStatus =
      Except.error undefinedBracketsError ∧
    calculateFICA grossIncome filingStatus =
      ⟨min grossIncome 168600 * 0.062, grossIncome * 0.0145,
       min grossIncome 168600 * 0.062 + grossIncome * 0.0145⟩ := by
  constructor
  · simp [calculateIncomeTax, STANDARD_DEDUCTIONS, TAX_BRACKETS, h1, h2]
  · simp [calculateFICA, ficaMedicareAdditionalThreshold, h1, h2,
      ficaSocialSecurityWageBase, ficaSocialSecurityRate, ficaMedicareRate]

/-- C9 witness: the amended claim at the concrete status `"head"` and gross
income $250,000. -/
theorem claim_C9_witness :
    calculateIncomeTax 250000 "head" = Except.error undefinedBracketsError ∧
    calculateFICA 250000 "head" =
      ⟨min (250000 : ℚ) 168600 * 0.062, 250000 * 0.0145,
       min (250000 : ℚ) 168600 * 0.062 + 250000 * 0.0145⟩ :=
  claim_C9_amended "head" (by decide) (by decide) 250000

/-- Ground evaluation of the deduction table at the key `"single"`. -/
lemma deduction_single : STANDARD_DEDUCTIONS "single" = some 14600 := rfl

/-- Ground evaluation of the deduction table at the key `"married"`. -/
lemma deduction_married : STANDARD_DEDUCTIONS "married" = some 29200 := rfl

/-- Unfolding of `calculateIncomeTax` at the key `"single"`. -/
lemma calcIncomeTax_single_eq (g : ℚ) :
    calculateIncomeTax g "single" =
      Except.ok (bracketLoop singleBrackets (max 0 (g - 14600)) 0) := rfl

/-- Unfolding of `calculateIncomeTax` at the key `"married"`. -/
lemma calcIncomeTax_married_eq (g : ℚ) :
    calculateIncomeTax g "married" =
      Except.ok (bracketLoop marriedBrackets (max 0 (g - 29200)) 0) := rfl

/-- Every rate in the single bracket table is non-negative. -/
lemma singleBrackets_rates_nonneg : ∀ b ∈ singleBrackets, 0 ≤ b.rate := by
  intro b hb
  simp only [singleBrackets, List.mem_cons, List.not_mem_nil, or_false] at hb
  rcases hb with h | h | h | h | h | h | h <;> subst h <;> norm_num

/-- Every rate in the married bracket table is non-negative. -/
lemma marriedBrackets_rates_nonneg : ∀ b ∈ marriedBrackets, 0 ≤ b.rate := by
  intro b hb
  simp only [marriedBrackets, List.mem_cons, List.not_mem_nil, or_false] at hb
  rcases hb with h | h | h | h | h | h | h <;> subst h <;> norm_num

/-- The bracket walk never produces a negative tax when all rates are
non-negative. -/
lemma bracketLoop_nonneg (bs : List Bracket) (hr : ∀ b ∈ bs, 0 ≤ b.rate)
    (ti prev : ℚ) : 0 ≤ bracketLoop bs ti prev := by
  induction bs generalizing prev with
  | nil => simp [bracketLoop]
  | cons b rest ih =>
    have hb0 : 0 ≤ b.rate := hr b (List.mem_cons_self b rest)
    have hrest : ∀ x ∈ rest, 0 ≤ x.rate := fun x hx => hr x (List.mem_cons_of_mem b hx)
    cases hb : b.bmax with
    | none =>
      simp only [bracketLoop, hb]
      split_ifs with h1 h2
      · exact le_refl 0
      · have := mul_nonneg h2.le hb0
        linarith
      · norm_num
    | some m =>
      simp only [bracketLoop, hb]
      split_ifs with h1 h2
      · exact le_refl 0
      · exact add_nonneg (mul_nonneg h2.le hb0) (ih hrest m)
      · simpa using ih hrest m

/-- The bracket walk is monotone in the taxable income when all rates are
non-negative. -/
lemma bracketLoop_mono (bs : List Bracket) (hr : ∀ b ∈ bs, 0 ≤ b.rate)
    (ti ti' prev : ℚ) (h : ti ≤ ti') :
    bracketLoop bs ti prev ≤ bracketLoop bs ti' prev := by
  induction bs generalizing prev with
  | nil => simp [bracketLoop]
  | cons b rest ih =>
    have hb0 : 0 ≤ b.rate := hr b (List.mem_cons_self b rest)
    have hrest : ∀ x ∈ rest, 0 ≤ x.rate := fun x hx => hr x (List.mem_cons_of_mem b hx)
    by_cases h1 : ti ≤ prev
    · rw [show bracketLoop (b :: rest) ti prev = 0 from by simp [bracketLoop, h1]]
      exact bracketLoop_nonneg (b :: rest) hr ti' prev
    · have h1' : ¬ ti' ≤ prev := fun hc => h1 (le_trans h hc)
      cases hb : b.bmax with
      | none =>
        simp only [bracketLoop, hb, if_neg h1, if_neg h1']
        have key : (if 0 < ti - prev then (ti - prev) * b.rate else 0) ≤
            (if 0 < ti' - prev then (ti' - prev) * b.rate else 0) := by
          split_ifs with a1 a2 a3
          · exact mul_le_mul_of_nonneg_right (by linarith) hb0
          · exact absurd (by linarith : 0 < ti' - prev) a2
          · exact mul_nonneg (by linarith) hb0
          · exact le_refl 0
        linarith
      | some m =>
        simp only [bracketLoop, hb, if_neg h1, if_neg h1']
        have hm : min ti m ≤ min ti' m := min_le_min h le_rfl
        have key : (if 0 < min ti m - prev then (min ti m - prev) * b.rate else 0) ≤
            (if 0 < min ti' m - prev then (min ti' m - prev) * b.rate else 0) := by
          split_ifs with a1 a2 a3
          · exact mul_le_mul_of_nonneg_right (by linarith) hb0
          · exact absurd (by linarith : 0 < min ti' m - prev) a2
          · exact mul_nonneg (by linarith) hb0
          · exact le_refl 0
        exact add_le_add key (ih hrest m)

/-- The bracket walk at zero taxable income breaks immediately. -/
lemma bracketLoop_zero (bs : List Bracket) : bracketLoop bs 0 0 = 0 := by
  cases bs <;> simp [bracketLoop]

/-- C4: for both filing statuses, `calculateIncomeTax` is monotonically
non-decreasing in `grossIncome`, and returns 0 whenever the gross income is
at or below the filing status's standard deduction. -/
theorem claim_C4_income_tax_monotone (filingStatus : String)
    (hs : filingStatus = "single" ∨ filingStatus = "married") :
    (∀ x y : ℚ, x ≤ y → ∀ tx ty : ℚ,
      calculateIncomeTax x filingStatus = Except.ok tx →
      calculateIncomeTax y filingStatus = Except.ok ty → tx ≤ ty) ∧
    (∀ d : ℚ, STANDARD_DEDUCTIONS filingStatus = some d →
      ∀ x : ℚ, x ≤ d → calculateIncomeTax x filingStatus = Except.ok 0) := by
  rcases hs with h | h <;> subst h
  · constructor
    · intro x y hxy tx ty hx hy
      rw [calcIncomeTax_single_eq, Except.ok.injEq] at hx hy
      rw [← hx, ← hy]
      exact bracketLoop_mono singleBrackets singleBrackets_rates_nonneg _ _ 0
        (max_le_max le_rfl (by linarith))
    · intro d hd x hx
      rw [deduction_single, Option.some.injEq] at hd
      rw [calcIncomeTax_single_eq, Except.ok.injEq]
      rw [show max 0 (x - 14600) = 0 from max_eq_left (by linarith)]
      exact (bracketLoop_zero singleBrackets).symm
  · constructor
    · intro x y hxy tx ty hx hy
      rw [calcIncomeTax_married_eq, Except.ok.injEq] at hx hy
      rw [← hx, ← hy]
      exact bracketLoop_mono marriedBrackets marriedBrackets_rates_nonneg _ _ 0
        (max_le_max le_rfl (by linarith))
    · intro d hd x hx
      rw [deduction_married, Option.some.injEq] at hd
      rw [calcIncomeTax_married_eq, Except.ok.injEq]
      rw [show max 0 (x - 29200) = 0 from max_eq_left (by linarith)]
      exact (bracketLoop_zero marriedBrackets).symm

/-- Ground evaluation of `calculateIncomeTax` at gross income $50,000,
single (the spec's own literal case): taxable $35,400; 1160 + 2856 = 4016. -/
lemma calcIncomeTax_50000_single : calculateIncomeTax 50000 "single" = Except.ok 4016 := by
  norm_num [calculateIncomeTax, STANDARD_DEDUCTIONS, TAX_BRACKETS, bracketLoop,
    singleBrackets, max_def, min_def]

/-- C4 witness: zero tax at gross income $10,000 single (below the $14,600
deduction), and monotonicity applied to the concrete pair
$50,000 ↦ $4,016 ≤ $75,000 ↦ $8,341. -/
theorem claim_C4_witness :
    calculateIncomeTax 10000 "single" = Except.ok 0 ∧ (4016 : ℚ) ≤ 8341 :=
  ⟨(claim_C4_income_tax_monotone "single" (Or.inl rfl)).2 14600 rfl 10000 (by norm_num),
   (claim_C4_income_tax_monotone "single" (Or.inl rfl)).1 50000 75000 (by norm_num)
     4016 8341 calcIncomeTax_50000_single calcIncomeTax_75000_single⟩

/-- C5 counterexample: `calculateFICA` does not clamp a negative gross
income to a zero taxable basis: at gross income −$100 (single) all three
returned fields are negative. -/
theorem claim_C5_counterexample :
    (calculateFICA (-100) "single").socialSecurity < 0 ∧
    (calculateFICA (-100) "single").medicare < 0 ∧
    (calculateFICA (-100) "single").total < 0 := by
  norm_num [calculateFICA, threshold_single, ficaSocialSecurityRate,
    ficaSocialSecurityWageBase, ficaMedicareRate, min_def]

/-- C5 amended: for every filing status, `calculateFICA` returns
non-negative `socialSecurity`, `medicare` and `total` whenever
`grossIncome ≥ 0` (a negative gross income is *not* clamped and yields
negative amounts), `total` is always the sum of the two components, and
`total` is strictly increasing in `grossIncome` on all of ℚ. -/
theorem claim_C5_amended (filingStatus : String) :
    (∀ g : ℚ, 0 ≤ g →
      0 ≤ (calculateFICA g filingStatus).socialSecurity ∧
      0 ≤ (calculateFICA g filingStatus).medicare ∧
      0 ≤ (calculateFICA g filingStatus).total) ∧
    (∀ g : ℚ, (calculateFICA g filingStatus).total =
      (calculateFICA g filingStatus).socialSecurity +
        (calculateFICA g filingStatus).medicare) ∧
    (∀ x y : ℚ, x < y →
      (calculateFICA x filingStatus).total < (calculateFICA y filingStatus).total) := by
  rcases ht : ficaMedicareAdditionalThreshold filingStatus with _ | t
  · refine ⟨fun g hg => ?_, fun g => rfl, fun x y hxy => ?_⟩
    · simp only [calculateFICA, ht, ficaSocialSecurityRate,
        ficaSocialSecurityWageBase, ficaMedicareRate]
      have hm : (0 : ℚ) ≤ min g 168600 := le_min hg (by norm_num)
      refine ⟨mul_nonneg hm (by norm_num), mul_nonneg hg (by norm_num), ?_⟩
      exact add_nonneg (mul_nonneg hm (by norm_num)) (mul_nonneg hg (by norm_num))
    · simp only [calculateFICA, ht, ficaSocialSecurityRate,
        ficaSocialSecurityWageBase, ficaMedicareRate]
      have hmin : min x 168600 * (0.062 : ℚ) ≤ min y 168600 * (0.062 : ℚ) :=
        mul_le_mul_of_nonneg_right (min_le_min hxy.le le_rfl) (by norm_num)
      have hmed : x * (0.0145 : ℚ) < y * (0.0145 : ℚ) :=
        mul_lt_mul_of_pos_right hxy (by norm_num)
      exact add_lt_add_of_le_of_lt hmin hmed
  · refine ⟨fun g hg => ?_, fun g => rfl, fun x y hxy => ?_⟩
    · simp only [calculateFICA, ht, ficaSocialSecurityRate,
        ficaSocialSecurityWageBase, ficaMedicareRate, ficaMedicareAdditionalRate]
      have hm : (0 : ℚ) ≤ min g 168600 := le_min hg (by norm_num)
      have hmed : (0 : ℚ) ≤ if t < g then g * (0.0145 : ℚ) + (g - t) * (0.009 : ℚ)
          else g * (0.0145 : ℚ) := by
        split_ifs with h
        · have : (0 : ℚ) ≤ (g - t) * 0.009 := mul_nonneg (by linarith) (by norm_num)
          have : (0 : ℚ) ≤ g * 0.0145 := mul_nonneg hg (by norm_num)
          linarith
        · exact mul_nonneg hg (by norm_num)
      exact ⟨mul_nonneg hm (by norm_num), hmed,
        add_nonneg (mul_nonneg hm (by norm_num)) hmed⟩
    · simp only [calculateFICA, ht, ficaSocialSecurityRate,
        ficaSocialSecurityWageBase, ficaMedicareRate, ficaMedicareAdditionalRate]
      have hmin : min x 168600 * (0.062 : ℚ) ≤ min y 168600 * (0.062 : ℚ) :=
        mul_le_mul_of_nonneg_right (min_le_min hxy.le le_rfl) (by norm_num)
      have hbase : x * (0.0145 : ℚ) < y * (0.0145 : ℚ) :=
        mul_lt_mul_of_pos_right hxy (by norm_num)
      split_ifs with h1 h2
      · have hadd : (x - t) * (0.009 : ℚ) ≤ (y - t) * (0.009 : ℚ) :=
          mul_le_mul_of_nonneg_right (by linarith) (by norm_num)
        exact add_lt_add_of_le_of_lt hmin (add_lt_add_of_lt_of_le hbase hadd)
      · exact absurd (lt_trans h1 hxy) h2
      · have hadd : (0 : ℚ) < (y - t) * (0.009 : ℚ) :=
          mul_pos (by linarith) (by norm_num)
        exact add_lt_add_of_le_of_lt hmin
          (lt_trans hbase (lt_add_of_pos_right _ hadd))
      · exact add_lt_add_of_le_of_lt hmin hbase

/-- C5 witness: the amended claim at the status `single`, gross income
$50,000 (non-negativity) and the pair $50,000 < $60,000 (strict growth). -/
theorem claim_C5_witness :
    0 ≤ (calculateFICA 50000 "single").socialSecurity ∧
    (calculateFICA 50000 "single").total < (calculateFICA 60000 "single").total :=
  ⟨((claim_C5_amended "single").1 50000 (by norm_num)).1,
   (claim_C5_amended "single").2.2 50000 60000 (by norm_num)⟩

/-- The coffee template contains no `{cents}` placeholder. -/
lemma coffee_no_cents : hasSubstr "About the cost of a coffee" "{cents}" = false := rfl

/-- The coffee template contains no `{days}` placeholder. -/
lemma coffee_no_days : hasSubstr "About the cost of a coffee" "{days}" = false := rfl

/-- The fast-food template contains no `{cents}` placeholder. -/
lemma fastfood_no_cents : hasSubstr "About the cost of a fast food meal" "{cents}" = false := rfl

/-- The fast-food template contains no `{days}` placeholder. -/
lemma fastfood_no_days : hasSubstr "About the cost of a fast food meal" "{days}" = false := rfl

/-- The penny template contains no `{cents}` placeholder. -/
lemma penny_no_cents : hasSubstr "Less than a penny" "{cents}" = false := rfl

/-- The penny template contains no `{days}` placeholder. -/
lemma penny_no_days : hasSubstr "Less than a penny" "{days}" = false := rfl

/-- The final (unbounded) template contains no `{cents}` placeholder. -/
lemma daysText_no_cents :
    hasSubstr "About {days} days of your annual tax contribution" "{cents}" = false := rfl

/-- The final (unbounded) template contains the `{days}` placeholder. -/
lemma daysText_has_days :
    hasSubstr "About {days} days of your annual tax contribution" "{days}" = true := rfl

/-- Substituting `0` for `{days}` in the final template. -/
lemma daysText_zero_subst :
    replaceFirst "About {days} days of your annual tax contribution" "{days}"
      (toString (0 : ℤ)) = "About 0 days of your annual tax contribution" := rfl

/-- Placeholder substitution is the identity on the coffee template. -/
lemma substitute_coffee (share annualTax : ℚ) :
    substituteComparison "About the cost of a coffee" share annualTax =
      "About the cost of a coffee" := by
  simp [substituteComparison, coffee_no_cents, coffee_no_days]

/-- Placeholder substitution is the identity on the fast-food template. -/
lemma substitute_fastfood (share annualTax : ℚ) :
    substituteComparison "About the cost of a fast food meal" share annualTax =
      "About the cost of a fast food meal" := by
  simp [substituteComparison, fastfood_no_cents, fastfood_no_days]

/-- Placeholder substitution is the identity on the penny template. -/
lemma substitute_penny (share annualTax : ℚ) :
    substituteComparison "Less than a penny" share annualTax =
      "Less than a penny" := by
  simp [substituteComparison, penny_no_cents, penny_no_days]

/-- C8: `getComparison` returns the template of the first comparison entry
whose `max` strictly exceeds the share — a share below the $0.01 bound of
the first tier lands there even though every later tier also bounds it, any
share in $[1, 5)$ (in particular $4.99) lands in the coffee tier, $5.00
exactly lands in the next (fast food) tier, and at `annualTax = 0` the
unbounded `{days}` tier substitutes `0` instead of failing on `0/0`. -/
theorem claim_C8_comparison_boundaries :
    (∀ annualTax : ℚ, getComparison 4.99 annualTax = "About the cost of a coffee") ∧
    (∀ annualTax : ℚ, getComparison 5 annualTax = "About the cost of a fast food meal") ∧
    (∀ share annualTax : ℚ, 1 ≤ share → share < 5 →
      getComparison share annualTax = "About the cost of a coffee") ∧
    (∀ share annualTax : ℚ, share < 0.01 →
      getComparison share annualTax = "Less than a penny") ∧
    (getComparison 1000 0 = "About 0 days of your annual tax contribution") := by
  refine ⟨fun a => ?_, fun a => ?_, fun share a h1 h5 => ?_, fun share a h0 => ?_, ?_⟩
  · norm_num [getComparison, comparisonLoop, COMPARISONS, substitute_coffee]
  · norm_num [getComparison, comparisonLoop, COMPARISONS, substitute_fastfood]
  · have n1 : ¬ share < (0.01 : ℚ) := by linarith
    have n2 : ¬ share < (0.10 : ℚ) := by linarith
    have n3 : ¬ share < (1.00 : ℚ) := by linarith
    have n4 : share < (5.00 : ℚ) := by linarith
    simp [getComparison, comparisonLoop, COMPARISONS, n1, n2, n3, n4,
      substitute_coffee]
  · simp [getComparison, comparisonLoop, COMPARISONS, h0, substitute_penny]
  · norm_num [getComparison, comparisonLoop, COMPARISONS, substituteComparison,
      daysText_no_cents, daysText_has_days, daysText_zero_subst]

/-- C8 witness: the in-range coffee tier and first-tier facts applied at
concrete shares. -/
theorem claim_C8_witness :
    getComparison 3 77 = "About the cost of a coffee" ∧
    getComparison 0.005 77 = "Less than a penny" :=
  ⟨claim_C8_comparison_boundaries.2.2.1 3 77 (by norm_num) (by norm_num),
   claim_C8_comparison_boundaries.2.2.2.1 0.005 77 (by norm_num)⟩

/-- C10: in the `mixed` branch, `breakdown.proportion` is
`yourShare / spendingAmount` with no guard: at `spendingAmount = 0` it is the
IEEE form `0/0 = NaN` even though `yourShare = 0`, and it is a finite value
for every nonzero spending amount; by contrast the `income` and `fica`
branches divide by their static positive `revenuePool` and stay well-defined
at zero spending. -/
theorem claim_C10_mixed_nan_proportion (cd : FundingCategory)
    (h : cd.taxSource = TaxSource.mixed) (incomeTax ficaTax : ℚ) :
    (calculateShareCore cd incomeTax ficaTax 0).breakdown.proportion = JsNum.nan ∧
    (calculateShareCore cd incomeTax ficaTax 0).yourShare = 0 ∧
    (∀ spendingAmount : ℚ, spendingAmount ≠ 0 → ∃ q : ℚ,
      (calculateShareCore cd incomeTax ficaTax spendingAmount).breakdown.proportion =
        JsNum.val q) ∧
    ((calculateShareCore defenseCategory incomeTax ficaTax 0).breakdown.proportion =
      JsNum.val (incomeTax / 2400000000000)) ∧
    ((calculateShareCore socialSecurityCategory incomeTax ficaTax 0).breakdown.proportion =
      JsNum.val (ficaTax / 1700000000000)) := by
  obtain ⟨n, ts, bp, rp, isp, fsp⟩ := cd
  cases h
  refine ⟨?_, ?_, fun s hs => ?_, ?_, ?_⟩
  · simp [calculateShareCore, jsDiv]
  · simp [calculateShareCore]
  · refine ⟨(incomeTax / revenueIndividualIncomeTax * s * isp +
      ficaTax / revenuePayrollTax * s * fsp) / s, ?_⟩
    simp [calculateShareCore, jsDiv, hs]
  · simp [calculateShareCore, defenseCategory, jsDiv, revenueIndividualIncomeTax]
  · simp [calculateShareCore, socialSecurityCategory, jsDiv, revenuePayrollTax]

/-- C10 witness: the NaN proportion and zero share at the `medicare` record
with concrete tax inputs and zero spending. -/
theorem claim_C10_witness :
    (calculateShareCore medicareCategory 5 7 0).breakdown.proportion = JsNum.nan ∧
    (calculateShareCore medicareCategory 5 7 0).yourShare = 0 :=
  ⟨(claim_C10_mixed_nan_proportion medicareCategory rfl 5 7).1,
   (claim_C10_mixed_nan_proportion medicareCategory rfl 5 7).2.1⟩

end HowMuchDidItCostMe
